import Mathlib

/-!
Verification development for the knowledge-gap resolution / web-search
augmentation pipeline of the ai-town-custom repository.

The TypeScript sources embedded here (shallowly, as pure Lean functions over
oracle inputs that stand for the outcomes of the external network / LLM
calls) are:

* `convex/agent/conversation.ts` — `startConversationMessage` and its helper
  classifiers `needsWebSearch`, `areSearchResultsRelevantToAgent`,
  `rewriteQuestionForAgent`, `detectCannotAnswerResponse`;
* `convex/util/webSearch.ts` — `performWebSearch`, `parseSearchResults`,
  `fetchAndSummarizeUrl`, `extractTextFromHtml`, `summarizeContent`,
  `filterAndFormatResults`, `extractKeywords`;
* `convex/util/webSearchLogger.ts` / `relevanceLogger.ts` — the shapes of the
  persisted `WebSearchLogEntry` and `RelevanceDecision` records.

External effects are modelled as explicit inputs: each `chatCompletion` call
is an `Option String` (`none` = the call threw), each HTTP fetch is an
`Option FetchResponse` (`none` = the fetch threw or timed out), and the
JavaScript regular-expression primitives used by the DuckDuckGo HTML parser
are supplied by a `RegexOracle` of pure functions, so every theorem below
holds for every behaviour of the real regex engine.  The append-only audit
log is modelled by the lists of records a turn produces.
-/

namespace AiTown

/-! ### Generic character-list helpers (JS string primitives) -/

/-- `prefixAt pat l` : does `l` start with `pat` (exact characters)? -/
def prefixAt : List Char → List Char → Bool
  | [], _ => true
  | _ :: _, [] => false
  | c :: cs, d :: ds => c == d && prefixAt cs ds

/-- `infixOfL pat l` : does `pat` occur contiguously anywhere in `l`?
Models JavaScript `String.prototype.includes`. -/
def infixOfL (pat : List Char) : List Char → Bool
  | [] => prefixAt pat []
  | c :: t => prefixAt pat (c :: t) || infixOfL pat t

/-- JS `hay.includes(pat)`. -/
def containsStr (hay pat : String) : Bool := infixOfL pat.data hay.data

/-- JS `s.startsWith(p)`. -/
def strBeginsWith (s p : String) : Bool := prefixAt p.data s.data

/-- The `Canonicalize` operation of a case-insensitive non-Unicode-mode
JavaScript regex (ECMA-262): a character maps to its simple Unicode
uppercase, except that a non-ASCII character never canonicalizes to an
ASCII one (so `ı`, `ſ`, `K` stay themselves) and a character whose
uppercasing is not a single character (such as `ß` or the Armenian `և`
ligature) maps to itself.  Spelled out for the scripts that occur in this
program — ASCII, Cyrillic (including the U+0450 row and the U+1C80 small
variants) and Armenian; every other character maps to itself, which agrees
with JS on all inputs over these scripts. -/
def canonChar (c : Char) : Char :=
  let n := c.toNat
  if 97 ≤ n && n ≤ 122 then Char.ofNat (n - 32)
  else if 0x430 ≤ n && n ≤ 0x44F then Char.ofNat (n - 0x20)
  else if 0x450 ≤ n && n ≤ 0x45F then Char.ofNat (n - 0x50)
  else if 0x561 ≤ n && n ≤ 0x586 then Char.ofNat (n - 0x30)
  else if n == 0x1C80 then Char.ofNat 0x412
  else if n == 0x1C81 then Char.ofNat 0x414
  else if n == 0x1C82 then Char.ofNat 0x41E
  else if n == 0x1C83 then Char.ofNat 0x421
  else if n == 0x1C84 then Char.ofNat 0x422
  else if n == 0x1C85 then Char.ofNat 0x422
  else if n == 0x1C86 then Char.ofNat 0x42A
  else if n == 0x1C87 then Char.ofNat 0x462
  else if n == 0x1C88 then Char.ofNat 0xA64A
  else c

/-- Case-insensitive prefix test (the `/i` regex flag, folding case through
`canonChar` exactly as a non-Unicode-mode JS regex does): if `l` starts
with `pat` up to case, return the remainder of `l`. -/
def ciPrefixRest : List Char → List Char → Option (List Char)
  | [], l => some l
  | _ :: _, [] => none
  | c :: cs, d :: ds => if canonChar c == canonChar d then ciPrefixRest cs ds else none

/-- One step of JS `replace(/\s+/g, ' ')`: every maximal whitespace run
becomes a single space.  The flag records whether the previous character was
whitespace. -/
def collapseWsAux : Bool → List Char → List Char
  | _, [] => []
  | prevWs, c :: rest =>
    if c.isWhitespace then
      if prevWs then collapseWsAux true rest
      else ' ' :: collapseWsAux true rest
    else c :: collapseWsAux false rest

/-- JS `s.replace(/\s+/g, ' ')`. -/
def collapseWs (s : String) : String := ⟨collapseWsAux false s.data⟩

/-- Skip to just past the next `>`. -/
def tagSpanGo : List Char → Option (List Char)
  | [] => none
  | c :: rest => if c == '>' then some rest else tagSpanGo rest

/-- Consume `[^>]+>` (at least one non-`>` character, then `>`), returning
what follows the `>`; `none` if the very next character is `>` or the list
ends before a `>`. -/
def tagSpan : List Char → Option (List Char)
  | [] => none
  | c :: rest => if c == '>' then none else tagSpanGo rest

/-- JS `s.replace(/<[^>]+>/g, repl)` on character lists, fuelled by the
input length (every match consumes input). -/
def stripTagsAux (repl : List Char) : Nat → List Char → List Char
  | 0, l => l
  | _ + 1, [] => []
  | fuel + 1, c :: rest =>
    if c == '<' then
      match tagSpan rest with
      | some rest' => repl ++ stripTagsAux repl fuel rest'
      | none => c :: stripTagsAux repl fuel rest
    else c :: stripTagsAux repl fuel rest

/-- JS `s.replace(/<[^>]+>/g, repl)`. -/
def stripTagsWith (repl : String) (s : String) : String :=
  ⟨stripTagsAux repl.data s.data.length s.data⟩

/-- Consume `[^>]*>`: skip any non-`>` characters then the `>`. -/
def skipToGtStar : List Char → Option (List Char)
  | [] => none
  | c :: rest => if c == '>' then some rest else skipToGtStar rest

/-- Find the first case-insensitive occurrence of `closePat` and return what
follows it. -/
def findCloseTag (closePat : List Char) : List Char → Option (List Char)
  | [] => ciPrefixRest closePat []
  | c :: t =>
    match ciPrefixRest closePat (c :: t) with
    | some r => some r
    | none => findCloseTag closePat t

/-- JS `s.replace(/<open[^>]*>[\s\S]*?<\/open>/gi, '')`: remove every
`openPat … [^>]*> … closePat` block, case-insensitively, scanning left to
right; a block without its closing tag is left in place. -/
def removeBlocksAux (openPat closePat : List Char) : Nat → List Char → List Char
  | 0, l => l
  | _ + 1, [] => []
  | fuel + 1, c :: rest =>
    match ciPrefixRest openPat (c :: rest) with
    | some afterOpen =>
      match skipToGtStar afterOpen with
      | some afterGt =>
        match findCloseTag closePat afterGt with
        | some afterClose => removeBlocksAux openPat closePat fuel afterClose
        | none => c :: removeBlocksAux openPat closePat fuel rest
      | none => c :: removeBlocksAux openPat closePat fuel rest
    | none => c :: removeBlocksAux openPat closePat fuel rest

/-- Remove `<tag …> … </tag>` blocks (case-insensitive) from a string. -/
def removeBlocks (openPat closePat : String) (s : String) : String :=
  ⟨removeBlocksAux openPat.data closePat.data s.data.length s.data⟩

/-- Split a character list at whitespace characters (the pieces between
whitespace; empty pieces appear for runs and are discarded by the length
filter of `extractKeywords`, exactly as with JS `split(/\s+/)`). -/
def splitWsGo (cur : List Char) : List Char → List (List Char)
  | [] => [cur.reverse]
  | c :: rest =>
    if c.isWhitespace then cur.reverse :: splitWsGo [] rest
    else splitWsGo (c :: cur) rest

/-- Order-preserving de-duplication: models `[...new Set(words)]`. -/
def dedupAux (seen : List String) : List String → List String
  | [] => []
  | x :: xs => if seen.contains x then dedupAux seen xs else x :: dedupAux (x :: seen) xs

/-- JS `Array.prototype.join(sep)`. -/
def joinSep (sep : String) : List String → String
  | [] => ""
  | [x] => x
  | x :: y :: xs => x ++ sep ++ joinSep sep (y :: xs)

/-- JS `s.toLowerCase()` (ASCII case folding). -/
def toLowerStr (s : String) : String := ⟨s.data.map Char.toLower⟩

/-- JS `s.toUpperCase()` (ASCII case folding). -/
def toUpperStr (s : String) : String := ⟨s.data.map Char.toUpper⟩

/-- JS `s.trim()`. -/
def trimStr (s : String) : String :=
  ⟨((s.data.dropWhile Char.isWhitespace).reverse.dropWhile Char.isWhitespace).reverse⟩

/-- Split at the first occurrence of `sep`: `some (before, after)` when
`sep` occurs, `none` otherwise. -/
def splitFirst (sep : List Char) : List Char → Option (List Char × List Char)
  | [] => if prefixAt sep [] then some ([], []) else none
  | c :: t =>
    if prefixAt sep (c :: t) then some ([], (c :: t).drop sep.length)
    else
      match splitFirst sep t with
      | some (pre, post) => some (c :: pre, post)
      | none => none

/-- JS `s.split(sep)` on character lists (non-empty literal separator),
fuelled by the input length. -/
def splitOnL (sep : List Char) : Nat → List Char → List (List Char)
  | 0, l => [l]
  | fuel + 1, l =>
    match splitFirst sep l with
    | some (pre, post) => pre :: splitOnL sep fuel post
    | none => [l]

/-- JS `s.split(sep)` with a literal separator. -/
def splitOnStr (s sep : String) : List String :=
  (splitOnL sep.data (s.data.length + 1) s.data).map (fun l => (⟨l⟩ : String))

/-- Replace every (non-overlapping, left-to-right) occurrence of `pat` by
`repl`. -/
def replaceAllL (pat repl : List Char) : Nat → List Char → List Char
  | 0, l => l
  | fuel + 1, l =>
    match splitFirst pat l with
    | some (pre, post) => pre ++ repl ++ replaceAllL pat repl fuel post
    | none => l

/-- JS `s.replace(/pat/g, repl)` with a literal pattern. -/
def replaceAllStr (s pat repl : String) : String :=
  ⟨replaceAllL pat.data repl.data (s.data.length + 1) s.data⟩

/-- JS non-regex `String.prototype.replace`: replace the FIRST occurrence of
`pat` only. -/
def replaceFirst (s pat repl : String) : String :=
  match splitFirst pat.data s.data with
  | some (pre, post) => ⟨pre ++ repl.data ++ post⟩
  | none => s

/-- The apostrophe character, `'`. -/
def apostropheChar : Char := Char.ofNat 39

/-- JS `s.replace(/^["']|["']$/g, '')`: strip one leading and one trailing
quote character. -/
def stripOuterQuotes (s : String) : String :=
  let isQ := fun (c : Char) => c == '"' || c == apostropheChar
  let l := s.data
  let l1 := match l with
    | c :: rest => if isQ c then rest else l
    | [] => l
  let l2 := match l1.reverse with
    | c :: rest => if isQ c then rest.reverse else l1
    | [] => l1
  ⟨l2⟩

/-! ### A tiny matcher for the fixed "cannot answer" regular expressions

`detectCannotAnswerResponse` in `conversation.ts` tests the reply against a
fixed table of case-insensitive regular expressions built only from literal
words, `\s+`, alternation and optional groups.  `Pat` is exactly that
fragment and `matchPat` is a complete backtracking matcher for it. -/

/-- The regex fragment used by the cannot-answer table. -/
inductive Pat where
  | lit : String → Pat
  | ws : Pat
  | opt : Pat → Pat
  | seq : Pat → Pat → Pat
  | alt : Pat → Pat → Pat
deriving Repr

/-- Remainders after consuming `\s+` (one or more whitespace characters):
one entry per possible amount consumed. -/
def wsPlus : List Char → List (List Char)
  | [] => []
  | c :: rest => if c.isWhitespace then rest :: wsPlus rest else []

/-- All ways to match `p` at the head of `l`; each element is the remaining
input after one successful match.  Case-insensitive (regex `/i`). -/
def matchPat : Pat → List Char → List (List Char)
  | .lit s, l =>
    match ciPrefixRest s.data l with
    | some rest => [rest]
    | none => []
  | .ws, l => wsPlus l
  | .opt p, l => l :: matchPat p l
  | .seq p q, l => (matchPat p l).flatMap (matchPat q)
  | .alt p q, l => matchPat p l ++ matchPat q l

/-- All suffixes of a character list (the candidate match start points). -/
def suffixesL : List Char → List (List Char)
  | [] => [[]]
  | c :: rest => (c :: rest) :: suffixesL rest

/-- JS `pattern.test(s)`: does the pattern match anywhere in `s`? -/
def patTest (p : Pat) (s : String) : Bool :=
  (suffixesL s.data).any (fun l => !(matchPat p l).isEmpty)

/-- Right-nested sequence of patterns. -/
def pseq (ps : List Pat) : Pat :=
  match ps with
  | [] => .lit ""
  | p :: rest => rest.foldl .seq p

/-- Right-nested alternation of literal words. -/
def paltLit (ss : List String) : Pat :=
  match ss with
  | [] => .lit ""
  | [s] => .lit s
  | s :: t :: rest => .alt (.lit s) (paltLit (t :: rest))

/-- The apostrophe as a one-character pattern literal (for `'?`). -/
def apoLit : Pat := .lit ⟨[apostropheChar]⟩

/-- The fixed table of "cannot answer" patterns from
`detectCannotAnswerResponse` (conversation.ts): nine English, four Armenian
and three Russian case-insensitive regular expressions. -/
def cannotAnswerPatterns : List Pat :=
  [ -- /outside\s+(my|of\s+my)\s+(competenc|expertise|knowledge|scope)/i
    pseq [.lit "outside", .ws, .alt (.lit "my") (pseq [.lit "of", .ws, .lit "my"]), .ws,
          paltLit ["competenc", "expertise", "knowledge", "scope"]],
    -- /beyond\s+(my|of\s+my)\s+(competenc|expertise|knowledge|scope)/i
    pseq [.lit "beyond", .ws, .alt (.lit "my") (pseq [.lit "of", .ws, .lit "my"]), .ws,
          paltLit ["competenc", "expertise", "knowledge", "scope"]],
    -- /don'?t\s+have\s+(enough\s+)?(information|knowledge|data)/i
    pseq [.lit "don", .opt apoLit, .lit "t", .ws, .lit "have", .ws,
          .opt (pseq [.lit "enough", .ws]), paltLit ["information", "knowledge", "data"]],
    -- /can'?t\s+(answer|help|provide\s+information)/i
    pseq [.lit "can", .opt apoLit, .lit "t", .ws,
          .alt (.lit "answer") (.alt (.lit "help") (pseq [.lit "provide", .ws, .lit "information"]))],
    -- /unable\s+to\s+(answer|help|provide)/i
    pseq [.lit "unable", .ws, .lit "to", .ws, paltLit ["answer", "help", "provide"]],
    -- /not\s+(qualified|able|equipped)\s+to\s+(answer|help)/i
    pseq [.lit "not", .ws, paltLit ["qualified", "able", "equipped"], .ws, .lit "to", .ws,
          paltLit ["answer", "help"]],
    -- /lack\s+the\s+(information|knowledge|expertise)/i
    pseq [.lit "lack", .ws, .lit "the", .ws, paltLit ["information", "knowledge", "expertise"]],
    -- /need\s+(more|additional|external)\s+(information|data|knowledge)/i
    pseq [.lit "need", .ws, paltLit ["more", "additional", "external"], .ws,
          paltLit ["information", "data", "knowledge"]],
    -- /would\s+need\s+to\s+(research|look\s+up|search)/i
    pseq [.lit "would", .ws, .lit "need", .ws, .lit "to", .ws,
          .alt (.lit "research") (.alt (pseq [.lit "look", .ws, .lit "up"]) (.lit "search"))],
    -- /դուրս\s+է\s+(իմ\s+)?(լիազորությունների|գիտելիքների|իմացության)/i
    pseq [.lit "դուրս", .ws, .lit "է", .ws, .opt (pseq [.lit "իմ", .ws]),
          paltLit ["լիազորությունների", "գիտելիքների", "իմացության"]],
    -- /չեմ\s+կարող\s+պատասխանել/i
    pseq [.lit "չեմ", .ws, .lit "կարող", .ws, .lit "պատասխանել"],
    -- /բավարար\s+տեղեկություններ\s+չունեմ/i
    pseq [.lit "բավարար", .ws, .lit "տեղեկություններ", .ws, .lit "չունեմ"],
    -- /անհրաժեշտ\s+է\s+(հետազոտել|որոնել)/i
    pseq [.lit "անհրաժեշտ", .ws, .lit "է", .ws, paltLit ["հետազոտել", "որոնել"]],
    -- /вне\s+(моей|моих)\s+(компетенции|знаний)/i
    pseq [.lit "вне", .ws, paltLit ["моей", "моих"], .ws, paltLit ["компетенции", "знаний"]],
    -- /не\s+могу\s+ответить/i
    pseq [.lit "не", .ws, .lit "могу", .ws, .lit "ответить"],
    -- /недостаточно\s+информации/i
    pseq [.lit "недостаточно", .ws, .lit "информации"] ]

/-- conversation.ts `detectCannotAnswerResponse`: true iff some pattern of
the fixed table matches the reply. -/
def detectCannotAnswerResponse (response : String) : Bool :=
  cannotAnswerPatterns.any (fun p => patTest p response)

/-! ### webSearch.ts — data model and the Retriever -/

/-- webSearch.ts `SearchResult`. -/
structure SearchResult where
  title : String
  snippet : String
  url : String
deriving DecidableEq, Repr

/-- Outcome of an HTTP fetch that did not throw: the `ok` flag and the
response body text. -/
structure FetchResponse where
  ok : Bool
  body : String
deriving DecidableEq, Repr

/-- The JavaScript regex primitives used by `parseSearchResults`, supplied
as pure functions so every theorem holds for every behaviour of the real
regex engine: `linkMatch` is
`section.match(/<a[^>]+class="result__a"[^>]+href="([^"]+)"[^>]*>(.*?)<\/a>/s)`
returning the captured `(href, titleHtml)`; `snippetMatch` and
`altSnippetMatch` are the two snippet regexes; `decodeURIComponent` is the
JS decoder (`none` = it threw). -/
structure RegexOracle where
  linkMatch : String → Option (String × String)
  snippetMatch : String → Option String
  altSnippetMatch : String → Option String
  decodeURIComponent : String → Option String

/-- The title/snippet cleaning chain of `parseSearchResults`: strip tags,
decode the listed HTML entities, collapse whitespace, trim. -/
def cleanResultField (s : String) : String :=
  let t1 := stripTagsWith "" s
  let t2 := replaceAllStr (replaceAllStr (replaceAllStr (replaceAllStr (replaceAllStr
      (replaceAllStr (replaceAllStr t1 "&amp;" "&") "&lt;" "<") "&gt;" ">")
      "&quot;" "\"") "&#39;" ⟨[apostropheChar]⟩) "&#x27;" ⟨[apostropheChar]⟩) "&nbsp;" " "
  trimStr (collapseWs t2)

/-- Scan the pieces that follow each occurrence of `uddg=`; the regex
`/uddg=([^&]+)/` captures, at the first occurrence where it is non-empty,
the run of non-`&` characters. -/
def uddgFrom : List String → Option String
  | [] => none
  | p :: rest =>
    let after := joinSep "uddg=" (p :: rest)
    let cap : String := ⟨after.data.takeWhile (fun c => !(c == '&'))⟩
    if cap == "" then uddgFrom rest else some cap

/-- `url.match(/uddg=([^&]+)/)`, returning the captured group. -/
def uddgParam (url : String) : Option String :=
  match splitOnStr url "uddg=" with
  | [] => none
  | _ :: rest => uddgFrom rest

/-- The snippet extraction of one loop iteration: the `result__snippet`
anchor first, the `div` alternative when that yields nothing. -/
def sectionSnippet (ro : RegexOracle) (s : String) : String :=
  let snippet0 :=
    match ro.snippetMatch s with
    | some sn => cleanResultField sn
    | none => ""
  if snippet0 == "" then
    match ro.altSnippetMatch s with
    | some sn => cleanResultField sn
    | none => ""
  else snippet0

/-- The final `if (title && url)` push of one loop iteration (the captured
`url` is non-empty by construction, so only the title is tested). -/
def sectionBuild (title snippet url : String) : Option SearchResult :=
  if !(title == "") then
    some { title := title,
           snippet := if snippet == "" then "No description available" else snippet,
           url := url }
  else none

/-- The second half of one iteration of the `parseSearchResults` loop, once
the final `url` is known: discard non-http(s) URLs, clean the title and
snippet, and build the `SearchResult` when the title is non-empty. -/
def sectionResultAt (ro : RegexOracle) (s url titleHtml : String) : Option SearchResult :=
  if !(strBeginsWith url "http://" || strBeginsWith url "https://") then none
  else sectionBuild (cleanResultField titleHtml) (sectionSnippet ro s) url

/-- The body of one iteration of the `parseSearchResults` loop
(webSearch.ts lines 104–189) for one result section: extract the link,
decode a DuckDuckGo `uddg=` redirect, then `sectionResultAt`; `none` models
`continue`. -/
def sectionResult (ro : RegexOracle) (s : String) : Option SearchResult :=
  match ro.linkMatch s with
  | none => none
  | some (url0, titleHtml) =>
    let urlOpt : Option String :=
      if containsStr url0 "uddg=" then
        match uddgParam url0 with
        | some enc => ro.decodeURIComponent enc
        | none => some url0
      else some url0
    match urlOpt with
    | none => none
    | some url => sectionResultAt ro s url titleHtml

/-- The `parseSearchResults` loop: visit the sections in order, keeping at
most 10 results (`results.length < 10` is re-checked before each
iteration). -/
def parseLoop (ro : RegexOracle) : List String → List SearchResult → List SearchResult
  | [], acc => acc
  | s :: rest, acc =>
    if acc.length < 10 then
      match sectionResult ro s with
      | some r => parseLoop ro rest (acc ++ [r])
      | none => parseLoop ro rest acc
    else acc

/-- The separator `'<div class="result '` used to split the DuckDuckGo HTML
into result sections. -/
def resultDivSep : String := "<div class=\"result "

/-- webSearch.ts `parseSearchResults`: split the HTML on the result-div
marker and parse each section (the element before the first marker is
skipped: the loop starts at index 1). -/
def parseSearchResults (ro : RegexOracle) (html : String) : List SearchResult :=
  match splitOnStr html resultDivSep with
  | [] => []
  | _ :: sections => parseLoop ro sections []

/-- webSearch.ts `performWebSearch`: fetch the DuckDuckGo HTML search page
(`fetchOutcome`; `none` = the fetch threw), return `[]` on a thrown fetch or
a non-OK status, otherwise parse and keep the top 5 results
(`results.slice(0, 5)`). -/
def performWebSearch (ro : RegexOracle) (fetchOutcome : Option FetchResponse) :
    List SearchResult :=
  match fetchOutcome with
  | none => []
  | some resp =>
    if !resp.ok then []
    else (parseSearchResults ro resp.body).take 5

/-! ### webSearch.ts — page fetching and summarization -/

/-- The `AbortSignal.timeout(5000)` bound on a candidate-page fetch, in
milliseconds. -/
def fetchAndSummarizeTimeoutMs : Nat := 5000

/-- webSearch.ts `extractTextFromHtml`: drop `<script>`/`<style>` blocks,
replace remaining tags by spaces, decode entities, collapse whitespace,
trim, and keep the first 5000 characters. -/
def extractTextFromHtml (html : String) : String :=
  let t1 := removeBlocks "<script" "</script>" html
  let t2 := removeBlocks "<style" "</style>" t1
  let t3 := stripTagsWith " " t2
  let t4 := replaceAllStr (replaceAllStr (replaceAllStr (replaceAllStr
      (replaceAllStr t3 "&nbsp;" " ") "&amp;" "&") "&lt;" "<") "&gt;" ">") "&quot;" "\""
  let t5 := trimStr (collapseWs t4)
  ⟨t5.data.take 5000⟩

/-- webSearch.ts `summarizeContent`: on a successful summarization call
return its content; when the call throws, fall back to the first 500
characters of the content followed by `"..."`. -/
def summarizeContent (content : String) (completion : Option String) : String :=
  match completion with
  | some summary => summary
  | none => (⟨content.data.take 500⟩ : String) ++ "..."

/-- webSearch.ts `fetchAndSummarizeUrl`: `none` when the page fetch threw or
timed out, when the response status is not OK, or when the extracted text is
shorter than 100 characters; otherwise the (possibly fallback) summary. -/
def fetchAndSummarizeUrl (fetchOutcome : Option FetchResponse)
    (summaryOutcome : Option String) : Option String :=
  match fetchOutcome with
  | none => none
  | some resp =>
    if !resp.ok then none
    else
      let textContent := extractTextFromHtml resp.body
      if textContent.length < 100 then none
      else some (summarizeContent textContent summaryOutcome)

/-! ### webSearch.ts — keyword scoring and context formatting -/

/-- `\w` of JS regexes: ASCII letters, digits and underscore. -/
def isWordChar (c : Char) : Bool := c.isAlphanum || c == '_'

/-- The stop-word set of `extractKeywords`. -/
def stopWordsList : List String :=
  ["a", "an", "the", "is", "are", "was", "were", "be", "been", "being",
   "have", "has", "had", "do", "does", "did", "will", "would", "could",
   "should", "may", "might", "can", "and", "or", "but", "in", "on", "at",
   "to", "for", "of", "with", "by", "from", "about", "as", "into", "through",
   "you", "your", "they", "their", "it", "its", "who", "what", "when", "where",
   "why", "how", "that", "this", "these", "those", "i", "me", "my", "we", "us"]

/-- webSearch.ts `extractKeywords`: lower-case, replace `[^\w\s]` by
spaces, split on whitespace, keep words longer than 3 characters that are
not stop words, de-duplicate preserving order. -/
def extractKeywords (text : String) : List String :=
  let replaced : List Char :=
    (toLowerStr text).data.map (fun c => if isWordChar c || c.isWhitespace then c else ' ')
  let words := ((splitWsGo [] replaced).map (fun l => (⟨l⟩ : String))).filter
    (fun w => w.length > 3 && !(stopWordsList.contains w))
  dedupAux [] words

/-- One result's relevance score in `filterAndFormatResults`: the number of
keywords contained in the lower-cased title + snippet. -/
def keywordScore (allKeywords : List String) (r : SearchResult) : Nat :=
  (allKeywords.filter
    (fun k => containsStr (toLowerStr (r.title ++ " " ++ r.snippet)) (toLowerStr k))).length

/-- Stable insertion of one scored result into a descending-by-score list
(models the stable JS `sort((a, b) => b.score - a.score)`). -/
def insertByScoreDesc (x : SearchResult × Nat) :
    List (SearchResult × Nat) → List (SearchResult × Nat)
  | [] => [x]
  | y :: ys => if y.2 ≤ x.2 then x :: y :: ys else y :: insertByScoreDesc x ys

/-- Stable descending sort by score. -/
def sortByScoreDesc : List (SearchResult × Nat) → List (SearchResult × Nat)
  | [] => []
  | x :: xs => insertByScoreDesc x (sortByScoreDesc xs)

/-- The result-selection stage of `filterAndFormatResults`: score every
result, keep those with a positive score sorted by descending score and take
the top 3; if none scores, fall back to the first 2 results of the original
list. -/
def ffrFinalResults (results : List SearchResult) (agentIdentity userQuestion : String) :
    List SearchResult :=
  let allKeywords := extractKeywords agentIdentity ++ extractKeywords userQuestion
  let scored := results.map (fun r => (r, keywordScore allKeywords r))
  let relevantResults := (sortByScoreDesc (scored.filter (fun sr => sr.2 > 0))).map (·.1)
  if relevantResults.length > 0 then relevantResults.take 3 else results.take 2

/-- The per-result summary used by `filterAndFormatResults`:
`summary || result.snippet` where `summary` is what `fetchAndSummarizeUrl`
returned (`null` or the empty string falls back to the snippet). -/
def effectiveSummary (fetchOutcome : Option FetchResponse) (summaryOutcome : Option String)
    (r : SearchResult) : String :=
  match fetchAndSummarizeUrl fetchOutcome summaryOutcome with
  | some s => if s == "" then r.snippet else s
  | none => r.snippet

/-- One formatted source block: `[Source N] title\nsummary\n(url)`. -/
def formatSource (idx : Nat) (r : SearchResult) (summary : String) : String :=
  "[Source " ++ toString (idx + 1) ++ "] " ++ r.title ++ "\n" ++ summary ++ "\n(" ++ r.url ++ ")"

/-- The summarization stage of `filterAndFormatResults`: pair each selected
result with its effective summary (page summary or snippet fallback). -/
def ffrSummarized (pageFetch : Nat → Option FetchResponse) (pageSummary : Nat → Option String)
    (finalResults : List SearchResult) : List (SearchResult × String) :=
  finalResults.enum.map
    (fun p => (p.2, effectiveSummary (pageFetch p.1) (pageSummary p.1) p.2))

/-- `summarizedResults.filter(result => result.summary)`: keep results with
a truthy (non-empty) summary. -/
def ffrValid (summarized : List (SearchResult × String)) : List (SearchResult × String) :=
  summarized.filter (fun p => !(p.2 == ""))

/-- The `[Source N] …` blocks joined by blank lines. -/
def ffrFormatted (validResults : List (SearchResult × String)) : String :=
  joinSep "\n\n" (validResults.enum.map (fun q => formatSource q.1 q.2.1 q.2.2))

/-- webSearch.ts `filterAndFormatResults`.  The page fetch and the
summarization call for the i-th selected result are supplied by the oracles
`pageFetch i` / `pageSummary i`.  Returns the formatted context block, or
`""` when there is nothing usable. -/
def filterAndFormatResults (pageFetch : Nat → Option FetchResponse)
    (pageSummary : Nat → Option String) (results : List SearchResult)
    (agentIdentity userQuestion : String) : String :=
  if results.isEmpty then ""
  else
    let finalResults := ffrFinalResults results agentIdentity userQuestion
    if finalResults.isEmpty then ""
    else
      let formatted := ffrFormatted (ffrValid (ffrSummarized pageFetch pageSummary finalResults))
      if formatted == "" then ""
      else "\n\nRelevant web information about \"" ++ userQuestion ++ "\":\n" ++ formatted ++ "\n"

/-! ### conversation.ts — the three classification components

Each component wraps one `chatCompletion` call in `try`/`catch`; the
`Option String` argument is the call's outcome (`none` = it threw) and the
`errorLogged` flag mirrors the `console.error` emitted in the `catch`
branch. -/

/-- Result of `needsWebSearch` (the NeedAssessor). -/
structure NeedResult where
  needed : Bool
  errorLogged : Bool
deriving DecidableEq, Repr

/-- conversation.ts `needsWebSearch`: `content.trim().toUpperCase()
.includes('YES')`; a thrown completion call defaults to `false` (fail
closed) and logs the error. -/
def needsWebSearch (completion : Option String) : NeedResult :=
  match completion with
  | some content =>
    { needed := containsStr (toUpperStr (trimStr content)) "YES", errorLogged := false }
  | none => { needed := false, errorLogged := true }

/-- The line of the completion output holding the decision:
`lines.find(l => l.startsWith('DECISION:'))`. -/
def decisionLineOf (content : String) : Option String :=
  (splitOnStr (trimStr content) "\n").find? (fun l => strBeginsWith l "DECISION:")

/-- The line holding the reasoning: `lines.find(l => l.startsWith('REASONING:'))`. -/
def reasoningLineOf (content : String) : Option String :=
  (splitOnStr (trimStr content) "\n").find? (fun l => strBeginsWith l "REASONING:")

/-- The decision/reasoning parser of `areSearchResultsRelevantToAgent`
(conversation.ts lines 207–213):
`isRelevant = decisionLine?.toUpperCase().includes('RELEVANT') &&
!decisionLine?.toUpperCase().includes('NOT_RELEVANT') || false`, and the
reasoning with its `REASONING:` prefix removed (first occurrence only),
defaulting to `'No reasoning provided'` when missing or blank. -/
def parseRelevanceContent (content : String) : Bool × String :=
  let isRelevant :=
    match decisionLineOf content with
    | some l =>
      containsStr (toUpperStr l) "RELEVANT" && !(containsStr (toUpperStr l) "NOT_RELEVANT")
    | none => false
  let reasoning :=
    match reasoningLineOf content with
    | some l =>
      let t := trimStr (replaceFirst l "REASONING:" "")
      if t == "" then "No reasoning provided" else t
    | none => "No reasoning provided"
  (isRelevant, reasoning)

/-- Result of `areSearchResultsRelevantToAgent` (the RelevanceClassifier). -/
structure RelevanceResult where
  isRelevant : Bool
  reasoning : String
  errorLogged : Bool
deriving DecidableEq, Repr

/-- conversation.ts `areSearchResultsRelevantToAgent`: parse the completion
output; a thrown completion call defaults to relevant (fail open) with the
fixed reasoning string, and logs the error. -/
def areSearchResultsRelevantToAgent (completion : Option String) : RelevanceResult :=
  match completion with
  | some content =>
    let p := parseRelevanceContent content
    { isRelevant := p.1, reasoning := p.2, errorLogged := false }
  | none =>
    { isRelevant := true,
      reasoning := "Error during relevance check, defaulting to relevant",
      errorLogged := true }

/-- Result of `rewriteQuestionForAgent` (the QueryRewriter). -/
structure RewriteResult where
  rewritten : String
  errorLogged : Bool
deriving DecidableEq, Repr

/-- conversation.ts `rewriteQuestionForAgent`:
`content.trim().replace(/^["']|["']$/g, '')`; a thrown completion call falls
back to the original question unchanged, and logs the error. -/
def rewriteQuestionForAgent (question : String) (completion : Option String) : RewriteResult :=
  match completion with
  | some content => { rewritten := stripOuterQuotes (trimStr content), errorLogged := false }
  | none => { rewritten := question, errorLogged := true }

/-! ### The audit records and one search phase of `startConversationMessage`

The proactive block (conversation.ts lines 417–486) and the fallback block
(lines 553–613) run the same sub-pipeline — rewrite, retrieve, classify,
log the relevance decision, summarize only if relevant, log the web search —
differing only in the `triggerType` tag and in the `success` flag of the
fallback log, which additionally requires a non-empty context.  `searchPhase`
is that shared sub-pipeline.  Wall-clock fields (`timestamp`,
`timestampISO`, `duration`) are not modelled. -/

/-- `RelevanceDecision.decision`. -/
inductive Decision where
  | RELEVANT
  | NOT_RELEVANT
deriving DecidableEq, Repr

/-- `WebSearchLogEntry.triggerType`. -/
inductive TriggerType where
  | proactive
  | fallback
deriving DecidableEq, Repr

/-- The persisted `RelevanceDecision` record (relevanceLogger.ts
`RelevanceLogEntry`, minus wall-clock fields). -/
structure RelevanceLogRecord where
  question : String
  agentName : String
  agentIdentity : String
  searchResults : List SearchResult
  decision : Decision
  reasoning : String
  rewrittenQuestion : String
deriving DecidableEq, Repr

/-- The persisted `WebSearchLogEntry` record (webSearchLogger.ts, minus
wall-clock fields). -/
structure WebSearchLogRecord where
  question : String
  agentName : String
  agentIdentity : String
  searchResults : List SearchResult
  success : Bool
  resultCount : Nat
  formattedContext : Option String
  error : Option String
  triggerType : TriggerType
deriving DecidableEq, Repr

/-- The external-call outcomes consumed by one search phase. -/
structure PhaseOracle where
  rewriteOut : Option String
  searchFetch : Option FetchResponse
  relevanceOut : Option String
  pageFetch : Nat → Option FetchResponse
  pageSummary : Nat → Option String

/-- What one search phase produces: the context string assigned to
`webSearchContext`, the two persisted records, and the network/LLM call
counts. -/
structure PhaseResult where
  context : String
  relLog : RelevanceLogRecord
  webLog : WebSearchLogRecord
  searchFetchCount : Nat
  classifyCount : Nat
  pageFetchCount : Nat
deriving DecidableEq, Repr

/-- One retrieval-and-classification phase of `startConversationMessage`
(shared by the proactive and the fallback block). -/
def searchPhase (ro : RegexOracle) (po : PhaseOracle) (question agentName agentIdentity : String)
    (isFallback : Bool) : PhaseResult :=
  let rew := rewriteQuestionForAgent question po.rewriteOut
  let results := performWebSearch ro po.searchFetch
  let rel := areSearchResultsRelevantToAgent po.relevanceOut
  let relLog : RelevanceLogRecord :=
    { question := question, agentName := agentName, agentIdentity := agentIdentity,
      searchResults := results,
      decision := if rel.isRelevant then Decision.RELEVANT else Decision.NOT_RELEVANT,
      reasoning := rel.reasoning, rewrittenQuestion := rew.rewritten }
  let ctx :=
    if rel.isRelevant then
      filterAndFormatResults po.pageFetch po.pageSummary results agentIdentity question
    else ""
  let success :=
    if isFallback then decide (results.length > 0) && rel.isRelevant && !(ctx == "")
    else decide (results.length > 0) && rel.isRelevant
  let webLog : WebSearchLogRecord :=
    { question := question, agentName := agentName, agentIdentity := agentIdentity,
      searchResults := results, success := success, resultCount := results.length,
      formattedContext := if ctx == "" then none else some ctx,
      error := none,
      triggerType := if isFallback then TriggerType.fallback else TriggerType.proactive }
  { context := ctx, relLog := relLog, webLog := webLog,
    searchFetchCount := 1, classifyCount := 1,
    pageFetchCount :=
      if rel.isRelevant then (ffrFinalResults results agentIdentity question).length else 0 }

/-! ### The whole turn: `startConversationMessage`

The turn is modelled from the point where content moderation has passed
(the moderation filter is an external collaborator).  All external-call
outcomes are fields of `TurnOracle`; the function is the straight-line
control flow of conversation.ts lines 401–667. -/

/-- All external-call outcomes of one turn. -/
structure TurnOracle where
  /-- `isWebSearchEnabled()` (read from the env var / compiled constant). -/
  enabled : Bool
  /-- `lastOtherPlayerMessage?.text` (`none` = no message from the other
  player in this conversation). -/
  lastMessage : Option String
  agentName : String
  /-- `agent?.identity || ''`. -/
  agentIdentity : String
  /-- Completion outcome inside `needsWebSearch`. -/
  needOut : Option String
  /-- External calls of the proactive search block. -/
  proactive : PhaseOracle
  /-- The content of the initial response generation. -/
  genContent : String
  /-- External calls of the fallback search block. -/
  fallback : PhaseOracle
  /-- Completion outcome of the fallback's regeneration call (`none` = the
  retry `chatCompletion` threw; the fallback's `catch` swallows it and
  control falls through to the final `if (webSearchContext)` return). -/
  retryOut : Option String
  /-- The regex primitives of the HTML parser. -/
  ro : RegexOracle

/-- `lastOtherPlayerMessage && lastOtherPlayerMessage.text` (an empty string
is falsy in JS). -/
def hasMessage (o : TurnOracle) : Bool :=
  match o.lastMessage with
  | some t => !(t == "")
  | none => false

/-- The message text (meaningful only when `hasMessage`). -/
def msgText (o : TurnOracle) : String := o.lastMessage.getD ""

/-- The guard of the proactive block:
`isWebSearchEnabled() && lastOtherPlayerMessage && lastOtherPlayerMessage.text`. -/
def webSearchGate (o : TurnOracle) : Bool := o.enabled && hasMessage o

/-- Does the proactive search block run?  The gate must hold and
`needsWebSearch` must have answered yes. -/
def proactiveRuns (o : TurnOracle) : Bool :=
  webSearchGate o && (needsWebSearch o.needOut).needed

/-- The proactive phase's outputs. -/
def proactivePhase (o : TurnOracle) : PhaseResult :=
  searchPhase o.ro o.proactive (msgText o) o.agentName o.agentIdentity false

/-- `webSearchContext` right after the proactive block. -/
def proactiveCtx (o : TurnOracle) : String :=
  if proactiveRuns o then (proactivePhase o).context else ""

/-- Does the fallback search execute?  Outer guard
`isWebSearchEnabled() && !webSearchContext && detectCannotAnswerResponse(content)`
plus the inner `lastOtherPlayerMessage && lastOtherPlayerMessage.text`. -/
def fallbackRuns (o : TurnOracle) : Bool :=
  o.enabled && (proactiveCtx o == "") && detectCannotAnswerResponse o.genContent && hasMessage o

/-- The fallback phase's outputs. -/
def fallbackPhase (o : TurnOracle) : PhaseResult :=
  searchPhase o.ro o.fallback (msgText o) o.agentName o.agentIdentity true

/-- The phases a turn actually executes, in order. -/
def turnPhases (o : TurnOracle) : List PhaseResult :=
  (if proactiveRuns o then [proactivePhase o] else []) ++
  (if fallbackRuns o then [fallbackPhase o] else [])

/-- Everything observable about one turn: the reply, the context that was
fed to the generation that produced the returned reply (`usedContext`), the
final value of the mutable `webSearchContext` variable at the return point
(`obtainedContext` — these differ exactly when the fallback's regeneration
call throws after a non-empty context was obtained), the audit-log records
persisted, and the external-call counts. -/
structure TurnResult where
  reply : String
  usedContext : String
  obtainedContext : String
  relLogs : List RelevanceLogRecord
  webLogs : List WebSearchLogRecord
  searchFetches : Nat
  classifyCalls : Nat
  pageFetches : Nat
  fallbackCycles : Nat

/-- conversation.ts `startConversationMessage` (the web-search augmentation
portion of the turn, after moderation passed).  When the fallback obtains a
non-empty context and the retry `chatCompletion` succeeds, the regenerated
reply is returned marked (line 648); when that call throws, the `catch`
(lines 654–657) swallows the error and the final `if (webSearchContext)`
(lines 661–664) returns the ORIGINAL reply — generated without any context
— with the `[web_search] ` marker, since `webSearchContext` was already
reassigned by the fallback. -/
def startConversationMessage (o : TurnOracle) : TurnResult :=
  let phases := turnPhases o
  let pCtx := proactiveCtx o
  let replyCtx : String × String × String :=
    if fallbackRuns o then
      let fCtx := (fallbackPhase o).context
      if !(fCtx == "") then
        match o.retryOut with
        | some retryContent => ("[web_search] " ++ retryContent, fCtx, fCtx)
        | none => ("[web_search] " ++ o.genContent, "", fCtx)
      else (o.genContent, "", "")
    else if !(pCtx == "") then ("[web_search] " ++ o.genContent, pCtx, pCtx)
    else (o.genContent, "", "")
  { reply := replyCtx.1, usedContext := replyCtx.2.1, obtainedContext := replyCtx.2.2,
    relLogs := phases.map (·.relLog),
    webLogs := phases.map (·.webLog),
    searchFetches := (phases.map (·.searchFetchCount)).sum,
    classifyCalls := (phases.map (·.classifyCount)).sum,
    pageFetches := (phases.map (·.pageFetchCount)).sum,
    fallbackCycles := if fallbackRuns o then 1 else 0 }

/-! ### Helper lemmas -/

theorem prefixAt_append_self (p r : List Char) : prefixAt p (p ++ r) = true := by
  induction p with
  | nil => rfl
  | cons c cs ih => simp [prefixAt, ih]

theorem strBeginsWith_append_self (p s : String) : strBeginsWith (p ++ s) p = true := by
  unfold strBeginsWith
  rw [String.data_append]
  exact prefixAt_append_self p.data s.data

theorem string_ne_empty_of_data_ne_nil {s : String} (h : s.data ≠ []) : s ≠ "" := by
  intro he
  rw [he] at h
  exact h rfl

theorem append_ne_empty_left {s t : String} (h : s ≠ "") : s ++ t ≠ "" := by
  apply string_ne_empty_of_data_ne_nil
  rw [String.data_append]
  intro hd
  rcases List.append_eq_nil.mp hd with ⟨h1, _⟩
  exact h (by cases s; simp_all)

theorem joinSep_ne_empty (sep : String) (l : List String) (hne : l ≠ [])
    (hall : ∀ x ∈ l, x ≠ "") : joinSep sep l ≠ "" := by
  match l with
  | [] => exact absurd rfl hne
  | [x] => simpa [joinSep] using hall x (by simp)
  | x :: y :: xs =>
    have hx : x ≠ "" := hall x (by simp)
    simpa [joinSep, String.append_assoc] using append_ne_empty_left hx

/-! ### C5 — component-specific safe defaults on a completion-call failure -/

/-- C5: on a completion-call failure (`none`), `needsWebSearch` fails
closed (`false`), `areSearchResultsRelevantToAgent` fails open (relevant),
and `rewriteQuestionForAgent` passes the original question through
unchanged; in each case the failure is logged. -/
theorem classification_error_defaults :
    (needsWebSearch none).needed = false ∧ (needsWebSearch none).errorLogged = true ∧
    (areSearchResultsRelevantToAgent none).isRelevant = true ∧
    (areSearchResultsRelevantToAgent none).errorLogged = true ∧
    ∀ q, (rewriteQuestionForAgent q none).rewritten = q ∧
      (rewriteQuestionForAgent q none).errorLogged = true :=
  ⟨rfl, rfl, rfl, rfl, fun _ => ⟨rfl, rfl⟩⟩

/-! ### C4 — the relevance-decision parsing -/

/-- C4 (counterexample): the parser is substring-containment based, not
exact-match: the decision line `DECISION: IRRELEVANT`, whose token is
`IRRELEVANT` and not exactly `RELEVANT`, is nevertheless classified
RELEVANT. -/
theorem relevance_parse_not_exact_match :
    decisionLineOf "DECISION: IRRELEVANT\nREASONING: r" = some "DECISION: IRRELEVANT" ∧
    trimStr (replaceFirst "DECISION: IRRELEVANT" "DECISION:" "") = "IRRELEVANT" ∧
    ¬ trimStr (replaceFirst "DECISION: IRRELEVANT" "DECISION:" "") = "RELEVANT" ∧
    (parseRelevanceContent "DECISION: IRRELEVANT\nREASONING: r").1 = true := by
  refine ⟨by decide, by decide, by decide, by decide⟩

/-- C4 (amended): the parser classifies the completion RELEVANT only if the
`DECISION:` line, upper-cased, contains the substring `RELEVANT` and does
not contain the substring `NOT_RELEVANT`; in particular a decision line
containing `NOT_RELEVANT` is never classified RELEVANT. -/
theorem relevance_parse_containment_semantics (content : String) :
    ((parseRelevanceContent content).1 = true →
      ∃ l, decisionLineOf content = some l ∧
        containsStr (toUpperStr l) "RELEVANT" = true ∧
        containsStr (toUpperStr l) "NOT_RELEVANT" = false) ∧
    (∀ l, decisionLineOf content = some l →
      containsStr (toUpperStr l) "NOT_RELEVANT" = true →
      (parseRelevanceContent content).1 = false) := by
  cases hd : decisionLineOf content with
  | none =>
    constructor
    · intro h
      exfalso
      simp [parseRelevanceContent, hd] at h
    · intro l' hl'
      exact absurd hl' (by simp)
  | some l =>
    constructor
    · intro h
      simp only [parseRelevanceContent, hd, Bool.and_eq_true, Bool.not_eq_eq_eq_not,
        Bool.not_true] at h
      exact ⟨l, rfl, h.1, h.2⟩
    · intro l' hl' hcontains
      injection hl' with he
      subst he
      simp [parseRelevanceContent, hd, hcontains]

/-- C4 witness: a `DECISION: NOT_RELEVANT` line is classified not
relevant. -/
theorem relevance_parse_containment_semantics_witness :
    (parseRelevanceContent "DECISION: NOT_RELEVANT").1 = false :=
  (relevance_parse_containment_semantics "DECISION: NOT_RELEVANT").2
    "DECISION: NOT_RELEVANT" (by decide) (by decide)

/-! ### C7 — `fetchAndSummarizeUrl` -/

/-- C7 (amended): the candidate-page fetch carries a 5-second timeout;
extracted text under 100 characters is rejected (`none`); extracted text is
truncated to 5000 characters before summarization; a thrown/timed-out fetch
or a non-OK status yields `none`, and a `none` from `fetchAndSummarizeUrl`
makes the caller fall back to the result's original snippet — but a failure
of the summarization call itself does NOT yield `none`: the first 500
characters of the extracted text followed by `...` are returned instead. -/
theorem fetchAndSummarizeUrl_spec :
    fetchAndSummarizeTimeoutMs = 5000 ∧
    (∀ so, fetchAndSummarizeUrl none so = none) ∧
    (∀ f so, f.ok = false → fetchAndSummarizeUrl (some f) so = none) ∧
    (∀ f so, (extractTextFromHtml f.body).length < 100 →
      fetchAndSummarizeUrl (some f) so = none) ∧
    (∀ h, (extractTextFromHtml h).length ≤ 5000) ∧
    (∀ f s, f.ok = true → 100 ≤ (extractTextFromHtml f.body).length →
      fetchAndSummarizeUrl (some f) (some s) = some s) ∧
    (∀ f, f.ok = true → 100 ≤ (extractTextFromHtml f.body).length →
      fetchAndSummarizeUrl (some f) none =
        some ((⟨(extractTextFromHtml f.body).data.take 500⟩ : String) ++ "...")) ∧
    (∀ pf ps r, fetchAndSummarizeUrl pf ps = none → effectiveSummary pf ps r = r.snippet) := by
  refine ⟨rfl, fun _ => rfl, ?_, ?_, ?_, ?_, ?_, ?_⟩
  · intro f so hok
    unfold fetchAndSummarizeUrl
    simp [hok]
  · intro f so hlen
    unfold fetchAndSummarizeUrl
    by_cases hok : f.ok
    · simp [hok, hlen]
    · simp [Bool.not_eq_true] at hok
      simp [hok]
  · intro h
    unfold extractTextFromHtml
    show (List.take 5000 _).length ≤ 5000
    rw [List.length_take]
    exact min_le_left _ _
  · intro f s hok hlen
    unfold fetchAndSummarizeUrl
    simp [hok, Nat.not_lt.mpr hlen, summarizeContent]
  · intro f hok hlen
    unfold fetchAndSummarizeUrl
    simp [hok, Nat.not_lt.mpr hlen, summarizeContent]
  · intro pf ps r hnone
    unfold effectiveSummary
    simp [hnone]

set_option maxRecDepth 20000 in
/-- C7 witness: a 150-character page body passes the ≥100 check and its
whole text survives extraction. -/
theorem fetchAndSummarizeUrl_spec_witness :
    fetchAndSummarizeUrl
        (some { ok := true, body := (⟨List.replicate 150 'a'⟩ : String) }) (some "S") =
      some "S" :=
  fetchAndSummarizeUrl_spec.2.2.2.2.2.1
    { ok := true, body := (⟨List.replicate 150 'a'⟩ : String) } "S" rfl (by decide)

set_option maxRecDepth 20000 in
/-- C7 (counterexample to the claim as stated): a summarization-call
failure is a failure of the sub-routine, yet the result is not `null` — the
truncated extracted text is returned instead of letting the caller fall
back to the snippet. -/
theorem fetchAndSummarizeUrl_summarize_failure_not_null :
    fetchAndSummarizeUrl
        (some { ok := true, body := (⟨List.replicate 150 'a'⟩ : String) }) none =
      some ((⟨List.replicate 150 'a'⟩ : String) ++ "...") ∧
    fetchAndSummarizeUrl
        (some { ok := true, body := (⟨List.replicate 150 'a'⟩ : String) }) none ≠ none := by
  constructor
  · decide
  · decide

/-! ### C6 — Retriever bounds -/

theorem parseLoop_eq (ro : RegexOracle) (l : List String) (acc : List SearchResult) :
    parseLoop ro l acc = acc ++ (l.filterMap (sectionResult ro)).take (10 - acc.length) := by
  induction l generalizing acc with
  | nil => simp [parseLoop]
  | cons s rest ih =>
    by_cases hlen : acc.length < 10
    · cases hs : sectionResult ro s with
      | some r =>
        have hfm : List.filterMap (sectionResult ro) (s :: rest) =
            r :: List.filterMap (sectionResult ro) rest := by
          simp [List.filterMap_cons, hs]
        have h10 : 10 - acc.length = (10 - (acc ++ [r]).length) + 1 := by
          simp only [List.length_append, List.length_cons, List.length_nil]
          omega
        simp only [parseLoop, if_pos hlen, hs, ih, hfm, h10, List.take_succ_cons,
          List.append_assoc, List.singleton_append]
      | none =>
        have hfm : List.filterMap (sectionResult ro) (s :: rest) =
            List.filterMap (sectionResult ro) rest := by
          simp [List.filterMap_cons, hs]
        simp only [parseLoop, if_pos hlen, hs, ih, hfm]
    · have h0 : 10 - acc.length = 0 := by omega
      simp [parseLoop, if_neg hlen, h0]

theorem parseSearchResults_eq (ro : RegexOracle) (html : String) :
    parseSearchResults ro html =
      (((splitOnStr html resultDivSep).drop 1).filterMap (sectionResult ro)).take 10 := by
  unfold parseSearchResults
  cases h : splitOnStr html resultDivSep with
  | nil => simp
  | cons a sections => simp [parseLoop_eq]

theorem sectionBuild_url (title snippet url : String) (r : SearchResult)
    (h : sectionBuild title snippet url = some r) : r.url = url := by
  unfold sectionBuild at h
  split at h
  · injection h with he
    rw [← he]
  · exact absurd h (by simp)

theorem sectionResultAt_url_scheme (ro : RegexOracle) (s url titleHtml : String)
    (r : SearchResult) (h : sectionResultAt ro s url titleHtml = some r) :
    (strBeginsWith r.url "http://" || strBeginsWith r.url "https://") = true := by
  unfold sectionResultAt at h
  by_cases hscheme : (strBeginsWith url "http://" || strBeginsWith url "https://") = true
  · rw [hscheme] at h
    simp only [Bool.not_true, Bool.false_eq_true, if_false] at h
    rw [sectionBuild_url _ _ _ _ h]
    exact hscheme
  · rw [Bool.not_eq_true] at hscheme
    rw [hscheme] at h
    simp at h

theorem sectionResult_url_scheme (ro : RegexOracle) (s : String) (r : SearchResult)
    (h : sectionResult ro s = some r) :
    (strBeginsWith r.url "http://" || strBeginsWith r.url "https://") = true := by
  unfold sectionResult at h
  cases hlink : ro.linkMatch s with
  | none => rw [hlink] at h; exact absurd h (by simp)
  | some p =>
    rw [hlink] at h
    obtain ⟨url0, titleHtml⟩ := p
    simp only at h
    split at h
    · exact absurd h (by simp)
    · exact sectionResultAt_url_scheme ro s _ titleHtml r h

/-- C6: `performWebSearch` returns at most 5 results; every returned URL
begins with `http://` or `https://`; a thrown fetch or a non-OK response
yields the empty list; and on success the output is exactly the first 5 of
the section-ordered parse of the DuckDuckGo HTML (order of the source
preserved).  The Lean model is a total function: no exception escapes. -/
theorem performWebSearch_bounds (ro : RegexOracle) (fo : Option FetchResponse) :
    (performWebSearch ro fo).length ≤ 5 ∧
    (∀ r ∈ performWebSearch ro fo,
      (strBeginsWith r.url "http://" || strBeginsWith r.url "https://") = true) ∧
    performWebSearch ro none = [] ∧
    (∀ f, fo = some f → f.ok = false → performWebSearch ro fo = []) ∧
    (∀ f, fo = some f → f.ok = true → performWebSearch ro fo =
      (((splitOnStr f.body resultDivSep).drop 1).filterMap (sectionResult ro)).take 5) := by
  refine ⟨?_, ?_, rfl, ?_, ?_⟩
  · cases fo with
    | none => simp [performWebSearch]
    | some f =>
      show (if (!f.ok) = true then [] else (parseSearchResults ro f.body).take 5).length ≤ 5
      by_cases hok : f.ok
      · simp only [hok, Bool.not_true, Bool.false_eq_true, if_false]
        rw [List.length_take]
        exact min_le_left _ _
      · rw [Bool.not_eq_true] at hok
        simp [hok]
  · intro r hr
    cases fo with
    | none => simp [performWebSearch] at hr
    | some f =>
      have hr' : r ∈ (if (!f.ok) = true then [] else (parseSearchResults ro f.body).take 5) := hr
      by_cases hok : f.ok
      · simp only [hok, Bool.not_true, Bool.false_eq_true, if_false] at hr'
        have hr2 := List.mem_of_mem_take hr'
        rw [parseSearchResults_eq] at hr2
        have hr3 := List.mem_of_mem_take hr2
        obtain ⟨sec, _, hsec⟩ := List.mem_filterMap.mp hr3
        exact sectionResult_url_scheme ro sec r hsec
      · rw [Bool.not_eq_true] at hok
        simp [hok] at hr'
  · intro f hfo hok
    subst hfo
    show (if (!f.ok) = true then [] else (parseSearchResults ro f.body).take 5) = []
    simp [hok]
  · intro f hfo hok
    subst hfo
    show (if (!f.ok) = true then [] else (parseSearchResults ro f.body).take 5) = _
    simp only [hok, Bool.not_true, Bool.false_eq_true, if_false]
    rw [parseSearchResults_eq, List.take_take]
    rfl

/-- C6 witness: a concrete regex oracle extracting one section produces one
http(s) result, at most 5, in order. -/
theorem performWebSearch_bounds_witness :
    performWebSearch
        { linkMatch := fun s => if s == "sec1" then some ("https://example.com", "Title") else none,
          snippetMatch := fun _ => none, altSnippetMatch := fun _ => none,
          decodeURIComponent := fun _ => none }
        (some { ok := true, body := "<div class=\"result sec1" }) =
      ((((splitOnStr "<div class=\"result sec1" resultDivSep).drop 1).filterMap
        (sectionResult
          { linkMatch := fun s => if s == "sec1" then some ("https://example.com", "Title") else none,
            snippetMatch := fun _ => none, altSnippetMatch := fun _ => none,
            decodeURIComponent := fun _ => none })).take 5) ∧
    (performWebSearch
        { linkMatch := fun s => if s == "sec1" then some ("https://example.com", "Title") else none,
          snippetMatch := fun _ => none, altSnippetMatch := fun _ => none,
          decodeURIComponent := fun _ => none }
        (some { ok := true, body := "<div class=\"result sec1" })).length ≤ 5 :=
  ⟨(performWebSearch_bounds _ _).2.2.2.2 _ rfl rfl, (performWebSearch_bounds _ _).1⟩

/-! ### C10 — zero-score keyword fallback in `filterAndFormatResults` -/

theorem formatSource_ne_empty (idx : Nat) (r : SearchResult) (summary : String) :
    formatSource idx r summary ≠ "" := by
  unfold formatSource
  apply append_ne_empty_left
  apply append_ne_empty_left
  apply append_ne_empty_left
  apply append_ne_empty_left
  apply append_ne_empty_left
  apply append_ne_empty_left
  apply append_ne_empty_left
  apply append_ne_empty_left
  decide

theorem ffrFormatted_eq_empty_iff (validResults : List (SearchResult × String)) :
    ffrFormatted validResults = "" ↔ validResults = [] := by
  constructor
  · intro h
    by_contra hne
    have hmap : validResults.enum.map (fun q => formatSource q.1 q.2.1 q.2.2) ≠ [] := by
      simp [List.map_eq_nil_iff, List.enum_eq_nil, hne]
    exact joinSep_ne_empty "\n\n" _ hmap
      (by
        intro x hx
        obtain ⟨q, _, hq⟩ := List.mem_map.mp hx
        rw [← hq]
        exact formatSource_ne_empty _ _ _) h
  · intro h
    subst h
    rfl

theorem ffrValid_eq_nil_iff (summarized : List (SearchResult × String)) :
    ffrValid summarized = [] ↔ ∀ p ∈ summarized, p.2 = "" := by
  unfold ffrValid
  rw [List.filter_eq_nil_iff]
  constructor
  · intro h p hp
    have := h p hp
    simpa using this
  · intro h p hp
    simpa using h p hp

theorem ffrFinalResults_zero_scores (results : List SearchResult) (id q : String)
    (hz : ∀ r ∈ results,
      keywordScore (extractKeywords id ++ extractKeywords q) r = 0) :
    ffrFinalResults results id q = results.take 2 := by
  unfold ffrFinalResults
  have hfil : (results.map
      (fun r => (r, keywordScore (extractKeywords id ++ extractKeywords q) r))).filter
      (fun sr => sr.2 > 0) = [] := by
    rw [List.filter_eq_nil_iff]
    intro a ha
    obtain ⟨r, hr, hra⟩ := List.mem_map.mp ha
    rw [← hra]
    simp [hz r hr]
  simp only [hfil]
  rfl

/-- C10: when no result matches any keyword (every score is 0),
`filterAndFormatResults` does not return the empty context on that account:
it falls back to the first 2 results of the original list, and the output is
empty only when all of their effective summaries are empty. -/
theorem ffr_zero_score_fallback (pageFetch : Nat → Option FetchResponse)
    (pageSummary : Nat → Option String) (results : List SearchResult) (id q : String)
    (hne : results ≠ [])
    (hz : ∀ r ∈ results,
      keywordScore (extractKeywords id ++ extractKeywords q) r = 0) :
    ffrFinalResults results id q = results.take 2 ∧
    (filterAndFormatResults pageFetch pageSummary results id q = "" ↔
      ∀ p ∈ (results.take 2).enum,
        effectiveSummary (pageFetch p.1) (pageSummary p.1) p.2 = "") := by
  have hfr := ffrFinalResults_zero_scores results id q hz
  refine ⟨hfr, ?_⟩
  have hie : results.isEmpty = false := List.isEmpty_eq_false.mpr hne
  have htake : (results.take 2).isEmpty = false := by
    match results with
    | [] => exact absurd rfl hne
    | r :: rest => rfl
  unfold filterAndFormatResults
  simp only [hie, hfr, htake, Bool.false_eq_true, if_false]
  constructor
  · intro h
    by_cases hfm :
        (ffrFormatted (ffrValid (ffrSummarized pageFetch pageSummary (results.take 2))) == "") = true
    · rw [beq_iff_eq] at hfm
      have hv := (ffrFormatted_eq_empty_iff _).mp hfm
      have hall := (ffrValid_eq_nil_iff _).mp hv
      intro p hp
      have hmem : (p.2, effectiveSummary (pageFetch p.1) (pageSummary p.1) p.2) ∈
          ffrSummarized pageFetch pageSummary (results.take 2) :=
        List.mem_map.mpr ⟨p, hp, rfl⟩
      exact hall _ hmem
    · rw [Bool.not_eq_true] at hfm
      rw [hfm] at h
      simp only [Bool.false_eq_true, if_false] at h
      exfalso
      refine append_ne_empty_left (t := "\n") ?_ h
      exact append_ne_empty_left (append_ne_empty_left (append_ne_empty_left (by decide)))
  · intro h
    have hall : ∀ p ∈ ffrSummarized pageFetch pageSummary (results.take 2), p.2 = "" := by
      intro p hp
      obtain ⟨pair, hpair, hp2⟩ := List.mem_map.mp hp
      rw [← hp2]
      exact h pair hpair
    have hv := (ffrValid_eq_nil_iff _).mpr hall
    have hfm : ffrFormatted (ffrValid (ffrSummarized pageFetch pageSummary (results.take 2))) = "" := by
      rw [hv]; rfl
    rw [show (ffrFormatted (ffrValid (ffrSummarized pageFetch pageSummary (results.take 2))) == "")
        = true from beq_iff_eq.mpr hfm]
    rfl

/-- C10 witness: one result, empty identity/question (no keywords, score
0); the pipeline falls back to the first results and the snippet keeps the
context non-empty. -/
theorem ffr_zero_score_fallback_witness :
    ffrFinalResults [{ title := "t", snippet := "s", url := "https://e" }] "" "" =
      [{ title := "t", snippet := "s", url := "https://e" }] ∧
    ¬ filterAndFormatResults (fun _ => none) (fun _ => none)
        [{ title := "t", snippet := "s", url := "https://e" }] "" "" = "" := by
  have h := ffr_zero_score_fallback (fun _ => none) (fun _ => none)
    [{ title := "t", snippet := "s", url := "https://e" }] "" "" (by decide) (by decide)
  constructor
  · exact h.1
  · intro hempty
    have := (h.2).mp hempty
    have hs := this (0, { title := "t", snippet := "s", url := "https://e" }) (by decide)
    exact absurd hs (by decide)

/-! ### Turn-level lemmas -/

theorem searchPhase_searchFetchCount (ro : RegexOracle) (po : PhaseOracle)
    (q n id : String) (fb : Bool) : (searchPhase ro po q n id fb).searchFetchCount = 1 := rfl

theorem searchPhase_classifyCount (ro : RegexOracle) (po : PhaseOracle)
    (q n id : String) (fb : Bool) : (searchPhase ro po q n id fb).classifyCount = 1 := rfl

theorem searchPhase_context_eq (ro : RegexOracle) (po : PhaseOracle)
    (q n id : String) (fb : Bool) :
    (searchPhase ro po q n id fb).context =
      if (areSearchResultsRelevantToAgent po.relevanceOut).isRelevant then
        filterAndFormatResults po.pageFetch po.pageSummary
          (performWebSearch ro po.searchFetch) id q
      else "" := rfl

theorem searchPhase_decision_eq (ro : RegexOracle) (po : PhaseOracle)
    (q n id : String) (fb : Bool) :
    (searchPhase ro po q n id fb).relLog.decision =
      if (areSearchResultsRelevantToAgent po.relevanceOut).isRelevant then Decision.RELEVANT
      else Decision.NOT_RELEVANT := rfl

theorem searchPhase_formattedContext_eq (ro : RegexOracle) (po : PhaseOracle)
    (q n id : String) (fb : Bool) :
    (searchPhase ro po q n id fb).webLog.formattedContext =
      if ((searchPhase ro po q n id fb).context == "") = true then none
      else some (searchPhase ro po q n id fb).context := rfl

theorem searchPhase_formattedContext_spec (ro : RegexOracle) (po : PhaseOracle)
    (q n id : String) (fb : Bool) :
    ((searchPhase ro po q n id fb).relLog.decision = Decision.NOT_RELEVANT →
      (searchPhase ro po q n id fb).webLog.formattedContext = none) ∧
    ((searchPhase ro po q n id fb).webLog.formattedContext.isSome = true ↔
      ((searchPhase ro po q n id fb).relLog.decision = Decision.RELEVANT ∧
        ¬ (searchPhase ro po q n id fb).context = "")) := by
  by_cases hrel : (areSearchResultsRelevantToAgent po.relevanceOut).isRelevant = true
  · constructor
    · intro hd
      rw [searchPhase_decision_eq, hrel, if_pos rfl] at hd
      exact absurd hd (by simp)
    · rw [searchPhase_formattedContext_eq, searchPhase_decision_eq, hrel, if_pos rfl]
      by_cases hc : ((searchPhase ro po q n id fb).context == "") = true
      · rw [beq_iff_eq] at hc
        simp [hc]
      · rw [Bool.not_eq_true, beq_eq_false_iff_ne] at hc
        simp only [beq_eq_false_iff_ne, ne_eq] at hc
        rw [if_neg (by simpa using hc)]
        simp [hc]
  · rw [Bool.not_eq_true] at hrel
    have hctx : (searchPhase ro po q n id fb).context = "" := by
      rw [searchPhase_context_eq, hrel]
      simp
    have hd : (searchPhase ro po q n id fb).relLog.decision = Decision.NOT_RELEVANT := by
      rw [searchPhase_decision_eq, hrel]
      simp
    have hfc : (searchPhase ro po q n id fb).webLog.formattedContext = none := by
      rw [searchPhase_formattedContext_eq, hctx]
      simp
    refine ⟨fun _ => hfc, ?_⟩
    rw [hfc, hd]
    simp

theorem turnPhases_mem (o : TurnOracle) (p : PhaseResult) (hp : p ∈ turnPhases o) :
    p = proactivePhase o ∨ p = fallbackPhase o := by
  unfold turnPhases at hp
  rcases List.mem_append.mp hp with h | h
  · left
    split at h
    · simpa using h
    · simp at h
  · right
    split at h
    · simpa using h
    · simp at h

theorem sum_counts_eq_length (l : List PhaseResult) (f : PhaseResult → Nat)
    (h : ∀ p ∈ l, f p = 1) : (l.map f).sum = l.length := by
  induction l with
  | nil => rfl
  | cons p rest ih =>
    simp only [List.map_cons, List.sum_cons, List.length_cons, h p (by simp)]
    rw [ih (fun x hx => h x (by simp [hx]))]
    omega

theorem turnPhases_counts (o : TurnOracle) :
    (∀ p ∈ turnPhases o, p.searchFetchCount = 1) ∧
    (∀ p ∈ turnPhases o, p.classifyCount = 1) := by
  constructor
  · intro p hp
    rcases turnPhases_mem o p hp with h | h <;> rw [h] <;> rfl
  · intro p hp
    rcases turnPhases_mem o p hp with h | h <;> rw [h] <;> rfl

/-! ### C1 — `formattedContext` is populated iff RELEVANT and non-empty -/

/-- C1: for every retrieval a turn performs, the persisted
`WebSearchLogEntry.formattedContext` is populated iff the relevance decision
recorded for that retrieval is RELEVANT and the summarized context is
non-empty; when the decision is NOT_RELEVANT it is absent. -/
theorem formattedContext_iff_relevant (o : TurnOracle) :
    ∀ p ∈ turnPhases o,
      (p.relLog.decision = Decision.NOT_RELEVANT → p.webLog.formattedContext = none) ∧
      (p.webLog.formattedContext.isSome = true ↔
        (p.relLog.decision = Decision.RELEVANT ∧ ¬ p.context = "")) := by
  intro p hp
  rcases turnPhases_mem o p hp with h | h <;> subst h
  · exact searchPhase_formattedContext_spec o.ro o.proactive (msgText o) o.agentName
      o.agentIdentity false
  · exact searchPhase_formattedContext_spec o.ro o.fallback (msgText o) o.agentName
      o.agentIdentity true

/-- A proactive retrieval whose relevance classification answers
NOT_RELEVANT. -/
def oracleNotRelevant : TurnOracle :=
  { enabled := true, lastMessage := some "q", agentName := "A", agentIdentity := "",
    needOut := some "YES",
    proactive :=
      { rewriteOut := none,
        searchFetch := some { ok := true, body := "<div class=\"result sec1" },
        relevanceOut := some "DECISION: NOT_RELEVANT\nREASONING: generic",
        pageFetch := fun _ => none, pageSummary := fun _ => none },
    genContent := "ok",
    fallback :=
      { rewriteOut := none, searchFetch := none, relevanceOut := none,
        pageFetch := fun _ => none, pageSummary := fun _ => none },
    retryOut := some "r",
    ro := { linkMatch := fun s => if s == "sec1" then some ("https://example.com", "Title") else none,
            snippetMatch := fun _ => none, altSnippetMatch := fun _ => none,
            decodeURIComponent := fun _ => none } }

/-- C1 witness: the NOT_RELEVANT proactive retrieval of `oracleNotRelevant`
persists no `formattedContext`. -/
theorem formattedContext_iff_relevant_witness :
    ((proactivePhase oracleNotRelevant).relLog.decision = Decision.NOT_RELEVANT →
      (proactivePhase oracleNotRelevant).webLog.formattedContext = none) ∧
    ((proactivePhase oracleNotRelevant).webLog.formattedContext.isSome = true ↔
      ((proactivePhase oracleNotRelevant).relLog.decision = Decision.RELEVANT ∧
        ¬ (proactivePhase oracleNotRelevant).context = "")) :=
  formattedContext_iff_relevant oracleNotRelevant (proactivePhase oracleNotRelevant) (by decide)

/-! ### C2 — exactly one log record per attempt -/

/-- C2: every retrieval attempt of a turn persists exactly one
`WebSearchLogEntry` (the web-log count equals the search-fetch count) and
every relevance-classification attempt persists exactly one
`RelevanceDecision` record (the relevance-log count equals the
classification count). -/
theorem one_log_per_attempt (o : TurnOracle) :
    (startConversationMessage o).webLogs.length = (startConversationMessage o).searchFetches ∧
    (startConversationMessage o).relLogs.length = (startConversationMessage o).classifyCalls := by
  constructor
  · show ((turnPhases o).map (·.webLog)).length = ((turnPhases o).map (·.searchFetchCount)).sum
    rw [List.length_map, sum_counts_eq_length _ _ (turnPhases_counts o).1]
  · show ((turnPhases o).map (·.relLog)).length = ((turnPhases o).map (·.classifyCount)).sum
    rw [List.length_map, sum_counts_eq_length _ _ (turnPhases_counts o).2]

/-! ### C3 — at most one fallback cycle, never re-scanned -/

/-- C3: a turn executes at most one fallback cycle, and nothing about the
fallback control flow — not the cycle count, the search-fetch count, nor
the persisted logs — depends on the outcome of the regeneration call (its
content, or whether it threw): the regenerated reply is never re-scanned
and can never trigger a second cycle, whatever it matches. -/
theorem fallback_at_most_once (o : TurnOracle) :
    (startConversationMessage o).fallbackCycles ≤ 1 ∧
    ∀ r, (startConversationMessage { o with retryOut := r }).fallbackCycles =
        (startConversationMessage o).fallbackCycles ∧
      (startConversationMessage { o with retryOut := r }).searchFetches =
        (startConversationMessage o).searchFetches ∧
      (startConversationMessage { o with retryOut := r }).webLogs =
        (startConversationMessage o).webLogs := by
  constructor
  · show (if fallbackRuns o then 1 else 0) ≤ 1
    split <;> simp
  · intro r
    exact ⟨rfl, rfl, rfl⟩

/-! ### C8 — network calls when the NeedAssessor says no -/

/-- The oracles of a phase that never gets a completion or fetch answer. -/
def poNone : PhaseOracle :=
  { rewriteOut := none, searchFetch := none, relevanceOut := none,
    pageFetch := fun _ => none, pageSummary := fun _ => none }

/-- The regex oracle whose matches all fail. -/
def roNone : RegexOracle :=
  { linkMatch := fun _ => none, snippetMatch := fun _ => none,
    altSnippetMatch := fun _ => none, decodeURIComponent := fun _ => none }

/-- A turn where the NeedAssessor answers NO but the generated reply matches
a cannot-answer pattern, so the fallback fires. -/
def oracleNeedNoFallback : TurnOracle :=
  { enabled := true, lastMessage := some "q", agentName := "A", agentIdentity := "",
    needOut := some "NO", proactive := poNone,
    genContent := "That is outside my competence",
    fallback := poNone, retryOut := some "r", ro := roNone }

/-- C8 (counterexample to the claim as stated): in `oracleNeedNoFallback`
the NeedAssessor returns false, yet the turn performs a search-surface fetch
— the fallback cycle triggered by the cannot-answer reply searches even
though the NeedAssessor said no. -/
theorem need_false_still_fetches :
    (needsWebSearch oracleNeedNoFallback.needOut).needed = false ∧
    detectCannotAnswerResponse oracleNeedNoFallback.genContent = true ∧
    (startConversationMessage oracleNeedNoFallback).searchFetches = 1 :=
  ⟨by decide, by decide, by decide⟩

/-- C8 (amended): when the NeedAssessor returns false, the proactive phase
performs no network call, and if additionally the generated reply matches no
cannot-answer pattern (so the fallback does not fire), the turn performs no
network call at all — neither a search-surface fetch nor a candidate-page
fetch. -/
theorem no_network_when_need_false (o : TurnOracle)
    (h1 : (needsWebSearch o.needOut).needed = false)
    (h2 : detectCannotAnswerResponse o.genContent = false) :
    (startConversationMessage o).searchFetches = 0 ∧
    (startConversationMessage o).pageFetches = 0 := by
  have hpr : proactiveRuns o = false := by
    unfold proactiveRuns
    rw [h1, Bool.and_false]
  have hfr : fallbackRuns o = false := by
    unfold fallbackRuns
    rw [h2]
    simp
  have hph : turnPhases o = [] := by
    unfold turnPhases
    rw [hpr, hfr]
    simp
  constructor
  · show ((turnPhases o).map (·.searchFetchCount)).sum = 0
    rw [hph]
    rfl
  · show ((turnPhases o).map (·.pageFetchCount)).sum = 0
    rw [hph]
    rfl

/-- A turn where the NeedAssessor answers NO and the reply is ordinary. -/
def oracleNeedNoPlain : TurnOracle :=
  { enabled := true, lastMessage := some "q", agentName := "A", agentIdentity := "",
    needOut := some "NO", proactive := poNone, genContent := "hello",
    fallback := poNone, retryOut := some "r", ro := roNone }

/-- C8 witness: with NeedAssessor = NO and an ordinary reply, the modelled
turn performs zero fetches. -/
theorem no_network_when_need_false_witness :
    (startConversationMessage oracleNeedNoPlain).searchFetches = 0 ∧
    (startConversationMessage oracleNeedNoPlain).pageFetches = 0 :=
  no_network_when_need_false oracleNeedNoPlain (by decide) (by decide)

/-! ### C9 — the `[web_search] ` augmentation marker -/

/-- A turn whose fallback obtains a non-empty context but whose retry
regeneration call throws: the NeedAssessor said NO, the reply matches a
cannot-answer pattern, the fallback search yields one RELEVANT result
(snippet-backed context), and `retryOut = none`. -/
def oracleRetryThrow : TurnOracle :=
  { enabled := true, lastMessage := some "q", agentName := "A", agentIdentity := "",
    needOut := some "NO",
    proactive := poNone,
    genContent := "That is outside my competence",
    fallback :=
      { rewriteOut := none,
        searchFetch := some { ok := true, body := "<div class=\"result sec1" },
        relevanceOut := some "DECISION: RELEVANT\nREASONING: yes",
        pageFetch := fun _ => none, pageSummary := fun _ => none },
    retryOut := none,
    ro := { linkMatch := fun s => if s == "sec1" then some ("https://example.com", "Title") else none,
            snippetMatch := fun _ => none, altSnippetMatch := fun _ => none,
            decodeURIComponent := fun _ => none } }

/-- C9 (counterexample to the claim as stated): when the fallback's retry
`chatCompletion` throws after a non-empty context was obtained, the `catch`
swallows the error and the final `if (webSearchContext)` returns the
ORIGINAL reply — generated without any web context — carrying the
`[web_search] ` marker: the reply begins with the marker although no
context was used to generate it. -/
theorem marked_reply_without_context :
    strBeginsWith oracleRetryThrow.genContent "[web_search] " = false ∧
    (startConversationMessage oracleRetryThrow).usedContext = "" ∧
    strBeginsWith (startConversationMessage oracleRetryThrow).reply "[web_search] " = true ∧
    (startConversationMessage oracleRetryThrow).reply =
      "[web_search] " ++ oracleRetryThrow.genContent :=
  ⟨by decide, by decide, by decide, by decide⟩

/-- C9 (amended): provided the raw generated reply does not itself start
with the marker, the returned reply begins with `"[web_search] "` iff a
non-empty web search context was OBTAINED during the turn (the final value
of `webSearchContext`) — not necessarily used to generate it.  Whenever a
non-empty context was used for the returned generation the marker is
present; when no context was obtained — in particular when the fallback
cycle yields an empty context — the original reply is returned unchanged
and unmarked; a successful fallback regeneration returns the marked
regenerated reply; and when the regeneration call throws, the marked
original (context-free) reply is returned. -/
theorem reply_marker_iff_context_obtained (o : TurnOracle)
    (hg : strBeginsWith o.genContent "[web_search] " = false) :
    (strBeginsWith (startConversationMessage o).reply "[web_search] " = true ↔
      ¬ (startConversationMessage o).obtainedContext = "") ∧
    (¬ (startConversationMessage o).usedContext = "" →
      strBeginsWith (startConversationMessage o).reply "[web_search] " = true) ∧
    ((startConversationMessage o).obtainedContext = "" →
      (startConversationMessage o).reply = o.genContent) ∧
    (∀ rc, o.retryOut = some rc → fallbackRuns o = true →
      ¬ (fallbackPhase o).context = "" →
      (startConversationMessage o).reply = "[web_search] " ++ rc ∧
      (startConversationMessage o).usedContext = (fallbackPhase o).context) ∧
    (o.retryOut = none → fallbackRuns o = true →
      ¬ (fallbackPhase o).context = "" →
      (startConversationMessage o).reply = "[web_search] " ++ o.genContent ∧
      (startConversationMessage o).usedContext = "") := by
  unfold startConversationMessage
  simp only
  by_cases hfb : fallbackRuns o
  · simp only [hfb, if_true]
    by_cases hfc : (((fallbackPhase o).context) == "") = true
    · simp only [hfc, Bool.not_true, Bool.false_eq_true, if_false]
      rw [beq_iff_eq] at hfc
      refine ⟨?_, ?_, ?_, ?_, ?_⟩
      · rw [hg]
        simp
      · intro hu
        exact absurd (by trivial) hu
      · intro _
        trivial
      · intro rc _ _ hctx
        exact absurd hfc hctx
      · intro _ _ hctx
        exact absurd hfc hctx
    · rw [Bool.not_eq_true] at hfc
      simp only [hfc, Bool.not_false, if_true]
      rw [beq_eq_false_iff_ne] at hfc
      cases hro : o.retryOut with
      | some rc =>
        simp only
        refine ⟨?_, ?_, ?_, ?_, ?_⟩
        · rw [strBeginsWith_append_self]
          simp [hfc]
        · intro _
          exact strBeginsWith_append_self _ _
        · intro hc
          exact absurd hc hfc
        · intro rc' hrc _ _
          injection hrc with he
          subst he
          exact ⟨by trivial, by trivial⟩
        · intro hnone
          exact absurd hnone (by simp)
      | none =>
        simp only
        refine ⟨?_, ?_, ?_, ?_, ?_⟩
        · rw [strBeginsWith_append_self]
          simp [hfc]
        · intro hu
          exact absurd (by trivial) hu
        · intro hc
          exact absurd hc hfc
        · intro rc' hrc
          exact absurd hrc (by simp)
        · intro _ _ _
          exact ⟨by trivial, by trivial⟩
  · simp only [hfb, Bool.false_eq_true, if_false]
    by_cases hpc : ((proactiveCtx o) == "") = true
    · simp only [hpc, Bool.not_true, Bool.false_eq_true, if_false]
      refine ⟨?_, ?_, ?_, ?_, ?_⟩
      · rw [hg]
        simp
      · intro hu
        exact absurd (by trivial) hu
      · intro _
        trivial
      · intro rc _ hfbt
        exact hfbt.elim
      · intro _ hfbt
        exact hfbt.elim
    · rw [Bool.not_eq_true] at hpc
      simp only [hpc, Bool.not_false, if_true]
      rw [beq_eq_false_iff_ne] at hpc
      refine ⟨?_, ?_, ?_, ?_, ?_⟩
      · rw [strBeginsWith_append_self]
        simp [hpc]
      · intro _
        exact strBeginsWith_append_self _ _
      · intro hc
        exact absurd hc hpc
      · intro rc _ hfbt
        exact hfbt.elim
      · intro _ hfbt
        exact hfbt.elim

/-- A turn whose proactive search succeeds: need = YES, one result,
RELEVANT, snippet-backed context. -/
def oracleProactiveHit : TurnOracle :=
  { enabled := true, lastMessage := some "q", agentName := "A", agentIdentity := "",
    needOut := some "YES",
    proactive :=
      { rewriteOut := none,
        searchFetch := some { ok := true, body := "<div class=\"result sec1" },
        relevanceOut := some "DECISION: RELEVANT\nREASONING: yes",
        pageFetch := fun _ => none, pageSummary := fun _ => none },
    genContent := "ok",
    fallback := poNone, retryOut := some "r",
    ro := { linkMatch := fun s => if s == "sec1" then some ("https://example.com", "Title") else none,
            snippetMatch := fun _ => none, altSnippetMatch := fun _ => none,
            decodeURIComponent := fun _ => none } }

/-- C9 witness: in `oracleProactiveHit` the reply carries the marker iff a
context was obtained (and one was), and a used context implies the
marker. -/
theorem reply_marker_iff_context_obtained_witness :
    (strBeginsWith (startConversationMessage oracleProactiveHit).reply "[web_search] " = true ↔
      ¬ (startConversationMessage oracleProactiveHit).obtainedContext = "") ∧
    (¬ (startConversationMessage oracleProactiveHit).usedContext = "" →
      strBeginsWith (startConversationMessage oracleProactiveHit).reply "[web_search] " = true) ∧
    ((startConversationMessage oracleProactiveHit).obtainedContext = "" →
      (startConversationMessage oracleProactiveHit).reply = oracleProactiveHit.genContent) ∧
    (∀ rc, oracleProactiveHit.retryOut = some rc → fallbackRuns oracleProactiveHit = true →
      ¬ (fallbackPhase oracleProactiveHit).context = "" →
      (startConversationMessage oracleProactiveHit).reply = "[web_search] " ++ rc ∧
      (startConversationMessage oracleProactiveHit).usedContext =
        (fallbackPhase oracleProactiveHit).context) ∧
    (oracleProactiveHit.retryOut = none → fallbackRuns oracleProactiveHit = true →
      ¬ (fallbackPhase oracleProactiveHit).context = "" →
      (startConversationMessage oracleProactiveHit).reply =
        "[web_search] " ++ oracleProactiveHit.genContent ∧
      (startConversationMessage oracleProactiveHit).usedContext = "") :=
  reply_marker_iff_context_obtained oracleProactiveHit (by decide)

end AiTown
